import Mathlib

/-!
Verification of the `ms-python-client` event codec and the zoom-id
reconciliation layer.

The codec (`create_event_body`, `create_partial_event_body`) is embedded
from `ms_python_client/utils/event_generator.py`; Python dicts become
ordered association lists (`Dict`), and `datetime.datetime.fromisoformat`
followed by `.isoformat()` is modelled by an executable ISO-8601 parser
and printer over a `DateTime` record.  The events component keyed by
zoom id (`cern_events_component.py`) is not part of the given sources,
so it is modelled from the specification, against an abstract provider;
those definitions say so in their doc comments.
-/

namespace MSClient

/-- A parsed datetime: the fields of a Python `datetime.datetime` value,
with an optional fixed UTC offset in seconds. -/
structure DateTime where
  year : Nat
  month : Nat
  day : Nat
  hour : Nat
  minute : Nat
  second : Nat
  microsecond : Nat
  offsetSeconds : Option Int
deriving DecidableEq, Repr

/-- Numeric value of a decimal digit character. -/
def digitVal (c : Char) : Nat := c.toNat - 48

/-- Gregorian leap-year test, as in Python's `calendar.isleap`. -/
def isLeapYear (y : Nat) : Bool := y % 4 = 0 && (y % 100 != 0 || y % 400 = 0)

/-- Number of days in a month of a given year. -/
def daysInMonth (y m : Nat) : Nat :=
  if m = 2 then (if isLeapYear y then 29 else 28)
  else if m = 4 || m = 6 || m = 9 || m = 11 then 30
  else 31

/-- Parse exactly two decimal digits. -/
def parseTwo : List Char → Option (Nat × List Char)
  | a :: b :: rest =>
    if a.isDigit && b.isDigit then some (digitVal a * 10 + digitVal b, rest) else none
  | _ => none

/-- Parse exactly four decimal digits. -/
def parseFour : List Char → Option (Nat × List Char)
  | a :: b :: c :: d :: rest =>
    if a.isDigit && b.isDigit && c.isDigit && d.isDigit then
      some (digitVal a * 1000 + digitVal b * 100 + digitVal c * 10 + digitVal d, rest)
    else none
  | _ => none

/-- Convert a fractional-second digit string to microseconds (first six
digits significant, shorter fractions scaled up). -/
def fracToMicro (ds : List Char) : Nat :=
  let six := ds.take 6
  (six.foldl (fun a c => a * 10 + digitVal c) 0) * 10 ^ (6 - six.length)

/-- Parse the `HH:MM[:SS[.ffffff]]` part of a time; returns hour, minute,
second, microsecond and the unconsumed tail (the UTC-offset part). -/
def parseTime (cs : List Char) : Option (Nat × Nat × Nat × Nat × List Char) :=
  match parseTwo cs with
  | some (h, ':' :: r1) =>
    match parseTwo r1 with
    | some (mi, r2) =>
      match r2 with
      | ':' :: r3 =>
        match parseTwo r3 with
        | some (s, r4) =>
          match r4 with
          | '.' :: r5 =>
            let ds := r5.takeWhile Char.isDigit
            let r6 := r5.dropWhile Char.isDigit
            if ds.isEmpty then none else some (h, mi, s, fracToMicro ds, r6)
          | _ => some (h, mi, s, 0, r4)
        | none => none
      | _ => some (h, mi, 0, 0, r2)
    | none => none
  | _ => none

/-- Parse the `HH:MM[:SS]` tail of a UTC offset (after the sign), giving
the magnitude in seconds. -/
def parseOffsetTail (cs : List Char) : Option Nat :=
  match parseTwo cs with
  | some (oh, ':' :: r1) =>
    match parseTwo r1 with
    | some (om, r2) =>
      match r2 with
      | [] => if oh ≤ 23 && om ≤ 59 then some (oh * 3600 + om * 60) else none
      | ':' :: r3 =>
        match parseTwo r3 with
        | some (os, []) =>
          if oh ≤ 23 && om ≤ 59 && os ≤ 59 then some (oh * 3600 + om * 60 + os) else none
        | _ => none
      | _ => none
    | none => none
  | _ => none

/-- Parse the optional UTC-offset suffix: empty, `Z`, or `±HH:MM[:SS]`. -/
def parseTz (cs : List Char) : Option (Option Int) :=
  match cs with
  | [] => some none
  | ['Z'] => some (some 0)
  | '+' :: r => (parseOffsetTail r).map (fun n => some (Int.ofNat n))
  | '-' :: r => (parseOffsetTail r).map (fun n => some (-(Int.ofNat n)))
  | _ => none

/-- Model of Python's `datetime.datetime.fromisoformat`: accepts
`YYYY-MM-DD`, optionally followed by a `T` or space separator and
`HH:MM[:SS[.fff...]]` with an optional `Z` or `±HH:MM[:SS]` offset;
field ranges are validated.  Returns `none` where Python raises
`ValueError`. -/
def fromisoformat (s : String) : Option DateTime :=
  match parseFour s.toList with
  | some (y, '-' :: r1) =>
    match parseTwo r1 with
    | some (m, '-' :: r2) =>
      match parseTwo r2 with
      | some (d, r3) =>
        let core := fun (h mi sec micro : Nat) (off : Option Int) =>
          if 1 ≤ y && y ≤ 9999 && 1 ≤ m && m ≤ 12 && 1 ≤ d && d ≤ daysInMonth y m
              && h ≤ 23 && mi ≤ 59 && sec ≤ 59 then
            some (DateTime.mk y m d h mi sec micro off)
          else none
        match r3 with
        | [] => core 0 0 0 0 none
        | c :: r4 =>
          if c = 'T' || c = ' ' then
            match parseTime r4 with
            | some (h, mi, sec, micro, r5) =>
              match parseTz r5 with
              | some off => core h mi sec micro off
              | none => none
            | none => none
          else none
      | _ => none
    | _ => none
  | _ => none

/-- Zero-pad a natural number to a given width. -/
def padNum (w n : Nat) : String :=
  let s := toString n
  String.mk (List.replicate (w - s.length) '0') ++ s

/-- Print a UTC offset the way Python's `isoformat` does:
empty for a naive datetime, otherwise `±HH:MM[:SS]`. -/
def offsetStr : Option Int → String
  | none => ""
  | some off =>
    let sign := if off < 0 then "-" else "+"
    let a := off.natAbs
    sign ++ padNum 2 (a / 3600) ++ ":" ++ padNum 2 (a % 3600 / 60) ++
      (if a % 60 = 0 then "" else ":" ++ padNum 2 (a % 60))

/-- Model of Python's `datetime.isoformat()`:
`YYYY-MM-DDTHH:MM:SS[.ffffff][±HH:MM[:SS]]`, microseconds omitted when
zero. -/
def isoformat (dt : DateTime) : String :=
  padNum 4 dt.year ++ "-" ++ padNum 2 dt.month ++ "-" ++ padNum 2 dt.day ++ "T" ++
  padNum 2 dt.hour ++ ":" ++ padNum 2 dt.minute ++ ":" ++ padNum 2 dt.second ++
  (if dt.microsecond = 0 then "" else "." ++ padNum 6 dt.microsecond) ++
  offsetStr dt.offsetSeconds

/-- A JSON value of the shapes the codec produces: strings, booleans,
the empty array, and flat string-valued objects. -/
inductive Val
  | s (x : String)
  | b (x : Bool)
  | emptyArr
  | obj (fields : List (String × String))
deriving DecidableEq, Repr

/-- A Python dict of `Val`s: an insertion-ordered association list. -/
abbrev Dict := List (String × Val)

/-- Dict lookup (`d[k]` as an `Option`). -/
def lookupKey (d : Dict) (k : String) : Option Val :=
  match d with
  | [] => none
  | (k2, v) :: rest => if k2 = k then some v else lookupKey rest k

/-- The keys of a dict, in insertion order. -/
def keysOf (d : Dict) : List String := d.map Prod.fst

/-- Set one key: replace in place if present, else append (Python dict
assignment semantics). -/
def setKey (d : Dict) (k : String) (v : Val) : Dict :=
  match d with
  | [] => [(k, v)]
  | (k2, v2) :: rest => if k2 = k then (k2, v) :: rest else (k2, v2) :: setKey rest k v

/-- Python's `dict.update`: set every key of `new` in order. -/
def updateDict (d : Dict) (new : Dict) : Dict :=
  new.foldl (fun acc kv => setKey acc kv.1 kv.2) d

/-- Remove the listed keys from a dict. -/
def removeKeys (ks : List String) (d : Dict) : Dict :=
  d.filter (fun kv => !(ks.contains kv.1))

/-- Two dicts are equivalent when every key looks up to the same value:
Python's `dict` equality, which ignores insertion order. -/
def dictEqv (a b : Dict) : Prop := ∀ k, lookupKey a k = lookupKey b k

/-- `EventParameters` of `event_generator.py`: all of `indico_event_id`,
`zoom_url`, `subject`, `start_time`, `end_time` required, `timezone`
optional. -/
structure EventParameters where
  indico_event_id : String
  zoom_url : String
  subject : String
  start_time : String
  end_time : String
  timezone : Option String
deriving DecidableEq, Repr

/-- `PartialEventParameters` of `event_generator.py`: `indico_event_id`
required, every other field optional; `none` models the key being absent
from the `TypedDict`. -/
structure PartialEventParameters where
  indico_event_id : String
  zoom_url : Option String
  subject : Option String
  start_time : Option String
  end_time : Option String
  timezone : Option String
deriving DecidableEq, Repr

/-- View full `EventParameters` as `PartialEventParameters` with every
optional field present. -/
def EventParameters.toPartial (p : EventParameters) : PartialEventParameters :=
  ⟨p.indico_event_id, some p.zoom_url, some p.subject,
   some p.start_time, some p.end_time, p.timezone⟩

/-- The errors the client surfaces: Python's `ValueError` from
`fromisoformat` (`invalidIso`), the component's `NotFoundError`
(`notFound`), an out-of-range index on an empty `value` list
(`indexError`), and the zoom-id lookup failure (`zoomIdNotFound`). -/
inductive ClientError
  | invalidIso (s : String)
  | notFound
  | indexError
  | zoomIdNotFound
deriving DecidableEq, Repr

/-- `create_event_body` of `event_generator.py`: builds the full
create-event JSON body, re-serializing the two timestamps and defaulting
the timezone to `"Europe/Zurich"`.  The dict literal evaluates
`fromisoformat` on `start_time` first, then on `end_time`; a failure is
Python's `ValueError`, modelled as `ClientError.invalidIso`. -/
def create_event_body (p : EventParameters) : Except ClientError Dict :=
  let timezone := p.timezone.getD "Europe/Zurich"
  match fromisoformat p.start_time with
  | none => .error (.invalidIso p.start_time)
  | some startDt =>
  match fromisoformat p.end_time with
  | none => .error (.invalidIso p.end_time)
  | some endDt =>
  .ok [
    ("subject", .s ("[" ++ p.indico_event_id ++ "] " ++ p.subject)),
    ("body", .obj [("contentType", "text"), ("content", "Zoom URL: " ++ p.zoom_url)]),
    ("start", .obj [("dateTime", isoformat startDt), ("timeZone", timezone)]),
    ("end", .obj [("dateTime", isoformat endDt), ("timeZone", timezone)]),
    ("location", .obj [("displayName", p.zoom_url), ("locationType", "default"),
                       ("uniqueIdType", "private"), ("uniqueId", p.zoom_url)]),
    ("attendees", .emptyArr),
    ("allowNewTimeProposals", .b false),
    ("isOnlineMeeting", .b true),
    ("onlineMeetingProvider", .s "unknown"),
    ("onlineMeetingUrl", .s p.zoom_url)]

/-- `create_partial_event_body` of `event_generator.py`: starts from an
empty dict and `update`s in the sub-objects for each present field, in
the source's branch order (`zoom_url`, `subject`, `start_time`,
`end_time`); a `fromisoformat` failure surfaces immediately as
`ClientError.invalidIso` and no body is returned. -/
def create_partial_event_body (p : PartialEventParameters) : Except ClientError Dict :=
  let timezone := p.timezone.getD "Europe/Zurich"
  let event : Dict := []
  let event := match p.zoom_url with
    | none => event
    | some z => updateDict event [
        ("body", .obj [("contentType", "text"), ("content", "Zoom URL: " ++ z)]),
        ("location", .obj [("displayName", z), ("locationType", "default"),
                           ("uniqueIdType", "private"), ("uniqueId", z)]),
        ("onlineMeetingUrl", .s z)]
  let event := match p.subject with
    | none => event
    | some s => updateDict event [
        ("subject", .s ("[" ++ p.indico_event_id ++ "] " ++ s))]
  let afterStart : Except ClientError Dict :=
    match p.start_time with
    | none => .ok event
    | some st =>
      match fromisoformat st with
      | none => .error (.invalidIso st)
      | some dt => .ok (updateDict event [
          ("start", .obj [("dateTime", isoformat dt), ("timeZone", timezone)])])
  match afterStart with
  | .error e => .error e
  | .ok event =>
    match p.end_time with
    | none => .ok event
    | some et =>
      match fromisoformat et with
      | none => .error (.invalidIso et)
      | some dt => .ok (updateDict event [
          ("end", .obj [("dateTime", isoformat dt), ("timeZone", timezone)])])

/-- The four constant keys only full creation sets. -/
def fixedConstKeys : List String :=
  ["attendees", "allowNewTimeProposals", "isOnlineMeeting", "onlineMeetingProvider"]

/-- A `singleValueExtendedProperties` entry of a provider event. -/
structure ExtProp where
  id : String
  value : String
deriving DecidableEq, Repr

/-- A provider-owned calendar event as the component reads it: the
provider-assigned `id`, the `subject`, and the optional
`singleValueExtendedProperties` sequence. -/
structure ProviderEvent where
  id : String
  subject : String
  singleValueExtendedProperties : Option (List ExtProp)
deriving DecidableEq, Repr

/-- A list response: the `@odata.count` field and the `value` sequence. -/
structure ListResponse where
  count : Nat
  value : List ProviderEvent
deriving DecidableEq, Repr

/-- HTTP method of a request issued through the transport facade. -/
inductive Method
  | get
  | post
  | patch
  | delete
deriving DecidableEq, Repr

/-- A request as the component hands it to the transport facade: method,
path, and the caller-supplied extra headers it must carry. -/
structure Request where
  method : Method
  path : String
  extraHeaders : List (String × String)
deriving DecidableEq, Repr

/-- The events-collection path for a user. -/
def eventsPath (user_id : String) : String :=
  "/users/" ++ user_id ++ "/calendar/events"

/-- The path of a single event. -/
def eventPath (user_id event_id : String) : String :=
  eventsPath user_id ++ "/" ++ event_id

/-- The abstract provider behind the transport facade: what it answers
to the list, get and patch requests the component issues. -/
structure Provider where
  listEvents : ListResponse
  getEvent : String → String → ProviderEvent
  patchEvent : String → String → Dict → Dict

/-- Does a character list occur as a contiguous infix of another? -/
def listHasInfix (pat : List Char) : List Char → Bool
  | [] => pat.isEmpty
  | c :: t => pat.isPrefixOf (c :: t) || listHasInfix pat t

/-- Substring containment on strings. -/
def containsSubstr (s pat : String) : Bool := listHasInfix pat.toList s.toList

/-- The fixed naming pattern identifying the zoom-id extended property. -/
def zoomIdPat : String := "Name ZoomId"

/-- First extended property whose `id` matches the zoom-id pattern. -/
def findZoomProp (props : List ExtProp) : Option ExtProp :=
  props.find? (fun p => containsSubstr p.id zoomIdPat)

/-- Modelled from the spec: `get_event_by_zoom_id` of
`cern_events_component.py`, which is not among the given sources.  It
lists the user's events (one GET on the events collection, carrying the
extra headers), fails with `NotFoundError` when the response's
`@odata.count` is `0`, and otherwise returns `value[0]` — an index
error when `value` is empty, the first element otherwise.  Returns the
result paired with the requests issued. -/
def get_event_by_zoom_id (prov : Provider) (user_id : String) (_zoom_id : String)
    (headers : List (String × String)) : Except ClientError ProviderEvent × List Request :=
  let req : Request := ⟨.get, eventsPath user_id, headers⟩
  let r := prov.listEvents
  if r.count = 0 then (.error .notFound, [req])
  else
    match r.value with
    | [] => (.error .indexError, [req])
    | e :: _ => (.ok e, [req])

/-- Modelled from the spec: `update_event` — PATCH the event with the
body built by `create_partial_event_body`; a codec date error is raised
before any request is issued. -/
def update_event (prov : Provider) (user_id event_id : String)
    (params : PartialEventParameters) (headers : List (String × String)) :
    Except ClientError Dict × List Request :=
  match create_partial_event_body params with
  | .error e => (.error e, [])
  | .ok body =>
    (.ok (prov.patchEvent user_id event_id body), [⟨.patch, eventPath user_id event_id, headers⟩])

/-- Modelled from the spec: `delete_event` — DELETE the event; success
carries no body. -/
def delete_event (_prov : Provider) (user_id event_id : String)
    (headers : List (String × String)) : Except ClientError Unit × List Request :=
  (.ok (), [⟨.delete, eventPath user_id event_id, headers⟩])

/-- Modelled from the spec: `update_event_by_zoom_id` — resolve the zoom
id embedded in the parameters to a provider event id via
`get_event_by_zoom_id`, then delegate to `update_event`; a resolution
failure propagates unchanged. -/
def update_event_by_zoom_id (prov : Provider) (user_id : String)
    (params : PartialEventParameters) (headers : List (String × String)) :
    Except ClientError Dict × List Request :=
  let (r, reqs) := get_event_by_zoom_id prov user_id (params.zoom_url.getD "") headers
  match r with
  | .error e => (.error e, reqs)
  | .ok ev =>
    let (r2, reqs2) := update_event prov user_id ev.id params headers
    (r2, reqs ++ reqs2)

/-- Modelled from the spec: `delete_event_by_zoom_id` — resolve the zoom
id via `get_event_by_zoom_id`, then delegate to `delete_event`; a
resolution failure propagates unchanged. -/
def delete_event_by_zoom_id (prov : Provider) (user_id zoom_id : String)
    (headers : List (String × String)) : Except ClientError Unit × List Request :=
  let (r, reqs) := get_event_by_zoom_id prov user_id zoom_id headers
  match r with
  | .error e => (.error e, reqs)
  | .ok ev =>
    let (r2, reqs2) := delete_event prov user_id ev.id headers
    (r2, reqs ++ reqs2)

/-- Modelled from the spec: `get_event_zoom_id` — GET the event by
provider id (one request, carrying the extra headers), then scan its
`singleValueExtendedProperties` for the entry whose `id` matches the
zoom-id naming pattern and return its `value`; fails with a lookup
error when the collection is absent or no entry matches. -/
def get_event_zoom_id (prov : Provider) (user_id event_id : String)
    (headers : List (String × String)) : Except ClientError String × List Request :=
  let req : Request := ⟨.get, eventPath user_id event_id, headers⟩
  let ev := prov.getEvent user_id event_id
  match ev.singleValueExtendedProperties with
  | none => (.error .zoomIdNotFound, [req])
  | some props =>
    match findZoomProp props with
    | none => (.error .zoomIdNotFound, [req])
    | some p => (.ok p.value, [req])

/-- The dict fragment the `zoom_url` branch of the partial codec
contributes. -/
def zoomPart : Option String → Dict
  | none => []
  | some z =>
    [("body", .obj [("contentType", "text"), ("content", "Zoom URL: " ++ z)]),
     ("location", .obj [("displayName", z), ("locationType", "default"),
                        ("uniqueIdType", "private"), ("uniqueId", z)]),
     ("onlineMeetingUrl", .s z)]

/-- The dict fragment the `subject` branch of the partial codec
contributes. -/
def subjPart (i : String) : Option String → Dict
  | none => []
  | some s => [("subject", .s ("[" ++ i ++ "] " ++ s))]

/-- The dict fragment a parsed timestamp contributes under `key`. -/
def dtPart (key tzv : String) : Option DateTime → Dict
  | none => []
  | some dt => [(key, .obj [("dateTime", isoformat dt), ("timeZone", tzv)])]

/-- A first event, as in the zoom-id lookup tests. -/
def demoEvent1 : ProviderEvent := ⟨"event_id", "zoom_id_1", none⟩

/-- A second event with the same shape. -/
def demoEvent2 : ProviderEvent := ⟨"event_id_2", "zoom_id_2", none⟩

/-- A provider whose list response has `@odata.count` 2 and two events. -/
def demoProvider : Provider :=
  ⟨⟨2, [demoEvent1, demoEvent2]⟩, fun _ _ => demoEvent1, fun _ _ _ => [("response", .s "ok")]⟩

/-- A provider whose list response has `@odata.count` 0. -/
def demoProviderEmpty : Provider := ⟨⟨0, []⟩, fun _ _ => demoEvent1, fun _ _ _ => []⟩

/-- The zoom-id extended property of the component tests. -/
def demoZoomProp : ExtProp :=
  ⟨"String \x7b66f5a359-4659-4830-9070-00040ec6ac6e\x7d Name ZoomId", "1234567890"⟩

/-- An event carrying the zoom-id extended property. -/
def demoEventWithProp : ProviderEvent := ⟨"event_id", "Test Event", some [demoZoomProp]⟩

/-- A provider returning `demoEventWithProp` for the get-event request. -/
def demoProvider2 : Provider :=
  ⟨⟨1, [demoEventWithProp]⟩, fun _ _ => demoEventWithProp, fun _ _ _ => []⟩

/-- PartialEventParameters with every optional field absent. -/
def emptyParams : PartialEventParameters := ⟨"1", none, none, none, none, none⟩

/-- The full parameters of the component tests. -/
def demoParams : EventParameters :=
  ⟨"1234567890", "https://zoom.us/j/1234567890", "Test Event",
   "2021-01-01T00:00:00", "2021-01-01T01:00:00", none⟩

/-- The body `create_event_body` produces for `demoParams`. -/
def demoFullBody : Dict :=
  [("subject", .s "[1234567890] Test Event"),
   ("body", .obj [("contentType", "text"), ("content", "Zoom URL: https://zoom.us/j/1234567890")]),
   ("start", .obj [("dateTime", "2021-01-01T00:00:00"), ("timeZone", "Europe/Zurich")]),
   ("end", .obj [("dateTime", "2021-01-01T01:00:00"), ("timeZone", "Europe/Zurich")]),
   ("location", .obj [("displayName", "https://zoom.us/j/1234567890"), ("locationType", "default"),
                      ("uniqueIdType", "private"), ("uniqueId", "https://zoom.us/j/1234567890")]),
   ("attendees", .emptyArr),
   ("allowNewTimeProposals", .b false),
   ("isOnlineMeeting", .b true),
   ("onlineMeetingProvider", .s "unknown"),
   ("onlineMeetingUrl", .s "https://zoom.us/j/1234567890")]

/-- The body `create_partial_event_body` produces for
`demoParams.toPartial`. -/
def demoPartialOfFull : Dict :=
  [("body", .obj [("contentType", "text"), ("content", "Zoom URL: https://zoom.us/j/1234567890")]),
   ("location", .obj [("displayName", "https://zoom.us/j/1234567890"), ("locationType", "default"),
                      ("uniqueIdType", "private"), ("uniqueId", "https://zoom.us/j/1234567890")]),
   ("onlineMeetingUrl", .s "https://zoom.us/j/1234567890"),
   ("subject", .s "[1234567890] Test Event"),
   ("start", .obj [("dateTime", "2021-01-01T00:00:00"), ("timeZone", "Europe/Zurich")]),
   ("end", .obj [("dateTime", "2021-01-01T01:00:00"), ("timeZone", "Europe/Zurich")])]

/-- Lookup distributes over append, preferring the left dict. -/
theorem lookupKey_append (a b : Dict) (k : String) :
    lookupKey (a ++ b) k = (lookupKey a k).or (lookupKey b k) := by
  induction a with
  | nil => simp [lookupKey]
  | cons kv rest ih =>
    obtain ⟨k2, v⟩ := kv
    by_cases h : k2 = k <;> simp [lookupKey, h, ih]

/-- Structure of a successful partial body: the four per-field fragments
concatenated in the source's branch order.  The update keys of distinct
branches are disjoint, so the `dict.update` chain is an append. -/
theorem create_partial_event_body_shape (p : PartialEventParameters) (d : Dict)
    (h : create_partial_event_body p = .ok d) :
    d = zoomPart p.zoom_url ++ subjPart p.indico_event_id p.subject ++
        dtPart "start" (p.timezone.getD "Europe/Zurich") (p.start_time.bind fromisoformat) ++
        dtPart "end" (p.timezone.getD "Europe/Zurich") (p.end_time.bind fromisoformat) := by
  obtain ⟨i, z, s, st, et, tz⟩ := p
  unfold create_partial_event_body at h
  cases st with
  | none =>
    cases et with
    | none => cases z <;> cases s <;> simp_all [zoomPart, subjPart, dtPart, updateDict, setKey]
    | some et2 =>
      cases h2 : fromisoformat et2 with
      | none => simp_all
      | some d2 => cases z <;> cases s <;> simp_all [zoomPart, subjPart, dtPart, updateDict, setKey]
  | some st2 =>
    cases h1 : fromisoformat st2 with
    | none => simp_all
    | some d1 =>
      cases et with
      | none => cases z <;> cases s <;> simp_all [zoomPart, subjPart, dtPart, updateDict, setKey]
      | some et2 =>
        cases h2 : fromisoformat et2 with
        | none => simp_all
        | some d2 => cases z <;> cases s <;> simp_all [zoomPart, subjPart, dtPart, updateDict, setKey]

/-- A successful partial body means every present timestamp parsed. -/
theorem create_partial_event_body_ok_parses (p : PartialEventParameters) (d : Dict)
    (h : create_partial_event_body p = .ok d) :
    (∀ st, p.start_time = some st → ∃ dt, fromisoformat st = some dt) ∧
    (∀ et, p.end_time = some et → ∃ dt, fromisoformat et = some dt) := by
  obtain ⟨i, z, s, st, et, tz⟩ := p
  unfold create_partial_event_body at h
  cases st with
  | none =>
    cases et with
    | none => simp_all
    | some et2 => cases h2 : fromisoformat et2 <;> simp_all
  | some st2 =>
    cases h1 : fromisoformat st2 with
    | none => simp_all
    | some d1 =>
      cases et with
      | none => simp_all
      | some et2 => cases h2 : fromisoformat et2 <;> simp_all

/-- C1: `get_event_by_zoom_id` fails with `NotFoundError` exactly when the
provider's list response has `@odata.count` equal to `0`; otherwise it
returns the first element of the response's `value` sequence, whatever
the later elements are. -/
theorem get_event_by_zoom_id_first_match (prov : Provider) (user_id zoom_id : String)
    (headers : List (String × String)) :
    ((get_event_by_zoom_id prov user_id zoom_id headers).1 = .error .notFound ↔
      prov.listEvents.count = 0) ∧
    (∀ e rest, prov.listEvents.value = e :: rest → prov.listEvents.count ≠ 0 →
      (get_event_by_zoom_id prov user_id zoom_id headers).1 = .ok e) := by
  constructor
  · unfold get_event_by_zoom_id
    by_cases h : prov.listEvents.count = 0
    · simp [h]
    · simp only [h, if_false]
      cases prov.listEvents.value <;> simp [h]
  · intro e rest hv hc
    unfold get_event_by_zoom_id
    simp [hv, hc]

/-- Witness for C1: with a count-2 response holding two events, the first
one is returned. -/
theorem get_event_by_zoom_id_first_match_witness :
    (get_event_by_zoom_id demoProvider "user_id" "zoom_id_1" []).1 = .ok demoEvent1 :=
  (get_event_by_zoom_id_first_match demoProvider "user_id" "zoom_id_1" []).2
    demoEvent1 [demoEvent2] rfl (by decide)

/-- C2: on full parameters viewed as partial ones, the partial body
equals, as a Python dict, the full body with the four fixed constant
keys removed. -/
theorem partialBody_agrees_with_fullBody (p : EventParameters) (full part : Dict)
    (hf : create_event_body p = .ok full)
    (hp : create_partial_event_body p.toPartial = .ok part) :
    dictEqv part (removeKeys fixedConstKeys full) := by
  cases hs : fromisoformat p.start_time with
  | none => unfold create_event_body at hf; rw [hs] at hf; simp at hf
  | some dtS =>
  cases he : fromisoformat p.end_time with
  | none => unfold create_event_body at hf; rw [hs, he] at hf; simp at hf
  | some dtE =>
  unfold create_event_body at hf
  rw [hs, he] at hf
  simp only [Except.ok.injEq] at hf
  subst hf
  have hshape := create_partial_event_body_shape p.toPartial part hp
  simp only [EventParameters.toPartial, Option.some_bind] at hshape
  rw [hs, he] at hshape
  subst hshape
  intro k
  by_cases h1 : "subject" = k
  · subst h1; rfl
  by_cases h2 : "body" = k
  · subst h2; rfl
  by_cases h3 : "start" = k
  · subst h3; rfl
  by_cases h4 : "end" = k
  · subst h4; rfl
  by_cases h5 : "location" = k
  · subst h5; rfl
  by_cases h6 : "onlineMeetingUrl" = k
  · subst h6; rfl
  simp [zoomPart, subjPart, dtPart, removeKeys, fixedConstKeys, lookupKey,
    h1, h2, h3, h4, h5, h6]

/-- Witness for C2: the agreement at the test parameters, looked up at
the `subject` key. -/
theorem partialBody_agrees_with_fullBody_witness :
    lookupKey demoPartialOfFull "subject" =
      lookupKey (removeKeys fixedConstKeys demoFullBody) "subject" :=
  partialBody_agrees_with_fullBody demoParams demoFullBody demoPartialOfFull rfl rfl "subject"

/-- C3: the key set of a successful partial body is exactly the union of
the per-field key sets of the present fields, in branch order: a present
`zoom_url` yields `body`, `location` and `onlineMeetingUrl` together,
`subject` yields `subject`, and `start_time` and `end_time` yield
`start` and `end` independently; presence is option-membership, so an
empty string still counts. -/
theorem create_partial_event_body_key_sets (p : PartialEventParameters) (d : Dict)
    (h : create_partial_event_body p = .ok d) :
    keysOf d =
      (match p.zoom_url with
        | some _ => ["body", "location", "onlineMeetingUrl"] | none => []) ++
      (match p.subject with | some _ => ["subject"] | none => []) ++
      (match p.start_time with | some _ => ["start"] | none => []) ++
      (match p.end_time with | some _ => ["end"] | none => []) := by
  have hok := create_partial_event_body_ok_parses p d h
  have hshape := create_partial_event_body_shape p d h
  subst hshape
  cases hst : p.start_time with
  | none =>
    cases het : p.end_time with
    | none =>
      cases p.zoom_url <;> cases p.subject <;>
        simp_all [keysOf, zoomPart, subjPart, dtPart]
    | some et2 =>
      obtain ⟨d2, hd2⟩ := hok.2 et2 het
      cases p.zoom_url <;> cases p.subject <;>
        simp_all [keysOf, zoomPart, subjPart, dtPart]
  | some st2 =>
    obtain ⟨d1, hd1⟩ := hok.1 st2 hst
    cases het : p.end_time with
    | none =>
      cases p.zoom_url <;> cases p.subject <;>
        simp_all [keysOf, zoomPart, subjPart, dtPart]
    | some et2 =>
      obtain ⟨d2, hd2⟩ := hok.2 et2 het
      cases p.zoom_url <;> cases p.subject <;>
        simp_all [keysOf, zoomPart, subjPart, dtPart]

/-- Witness for C3: empty-string `zoom_url` and `subject` still produce
their keys, and the absent timestamps produce none. -/
theorem create_partial_event_body_key_sets_witness :
    ∃ d, create_partial_event_body ⟨"7", some "", some "", none, none, none⟩ = .ok d ∧
      keysOf d = ["body", "location", "onlineMeetingUrl", "subject"] := by
  refine ⟨_, rfl, ?_⟩
  exact create_partial_event_body_key_sets ⟨"7", some "", some "", none, none, none⟩ _ rfl

/-- C4: both codec functions succeed exactly when every present
timestamp is valid ISO-8601, and a failure is the date-parsing error for
the offending string, with no body returned. -/
theorem event_bodies_ok_iff_valid_iso (p : EventParameters) (q : PartialEventParameters) :
    ((∃ d, create_event_body p = .ok d) ↔
      (fromisoformat p.start_time).isSome ∧ (fromisoformat p.end_time).isSome) ∧
    ((∃ d, create_partial_event_body q = .ok d) ↔
      (q.start_time.all fun s => (fromisoformat s).isSome) ∧
      (q.end_time.all fun s => (fromisoformat s).isSome)) ∧
    (fromisoformat p.start_time = none →
      create_event_body p = .error (.invalidIso p.start_time)) ∧
    (∀ st, q.start_time = some st → fromisoformat st = none →
      create_partial_event_body q = .error (.invalidIso st)) := by
  refine ⟨?_, ?_, ?_, ?_⟩
  · unfold create_event_body
    cases fromisoformat p.start_time <;> cases fromisoformat p.end_time <;> simp
  · obtain ⟨i, z, s, st, et, tz⟩ := q
    unfold create_partial_event_body
    cases st with
    | none =>
      cases et with
      | none => simp
      | some et2 => cases h2 : fromisoformat et2 <;> simp [h2]
    | some st2 =>
      cases h1 : fromisoformat st2 with
      | none => simp [h1]
      | some dt1 =>
        cases et with
        | none => simp [h1]
        | some et2 => cases h2 : fromisoformat et2 <;> simp [h1, h2]
  · intro h0
    unfold create_event_body
    rw [h0]
  · intro st hst h0
    obtain ⟨i, z, s, st2, et, tz⟩ := q
    simp only at hst
    subst hst
    unfold create_partial_event_body
    simp [h0]

/-- Witness for C4: a malformed `start_time` makes `create_event_body`
fail with the date-parsing error for that string. -/
theorem event_bodies_ok_iff_valid_iso_witness :
    create_event_body ⟨"7", "u", "s", "not-a-date", "2021-01-01T00:00:00", none⟩ =
      .error (.invalidIso "not-a-date") :=
  (event_bodies_ok_iff_valid_iso ⟨"7", "u", "s", "not-a-date", "2021-01-01T00:00:00", none⟩
    ⟨"7", none, none, none, none, none⟩).2.2.1 rfl

/-- C5: in a successful full body, `start.dateTime` and `end.dateTime`
are the canonical re-serializations of the parsed inputs, and both
`timeZone` fields are the input timezone when present and
`"Europe/Zurich"` when absent. -/
theorem create_event_body_start_end (p : EventParameters) (dtS dtE : DateTime) (full : Dict)
    (hs : fromisoformat p.start_time = some dtS)
    (he : fromisoformat p.end_time = some dtE)
    (h : create_event_body p = .ok full) :
    lookupKey full "start" =
      some (.obj [("dateTime", isoformat dtS), ("timeZone", p.timezone.getD "Europe/Zurich")]) ∧
    lookupKey full "end" =
      some (.obj [("dateTime", isoformat dtE), ("timeZone", p.timezone.getD "Europe/Zurich")]) ∧
    (∀ tz, p.timezone = some tz → p.timezone.getD "Europe/Zurich" = tz) ∧
    (p.timezone = none → p.timezone.getD "Europe/Zurich" = "Europe/Zurich") := by
  unfold create_event_body at h
  rw [hs, he] at h
  simp only [Except.ok.injEq] at h
  subst h
  refine ⟨rfl, rfl, ?_, ?_⟩
  · intro tz htz; rw [htz]; rfl
  · intro h0; rw [h0]; rfl

/-- Witness for C5: the canonical forms and default timezone at the test
parameters. -/
theorem create_event_body_start_end_witness :
    lookupKey demoFullBody "start" =
      some (.obj [("dateTime", "2021-01-01T00:00:00"), ("timeZone", "Europe/Zurich")]) ∧
    lookupKey demoFullBody "end" =
      some (.obj [("dateTime", "2021-01-01T01:00:00"), ("timeZone", "Europe/Zurich")]) := by
  have h := create_event_body_start_end demoParams
    ⟨2021, 1, 1, 0, 0, 0, 0, none⟩ ⟨2021, 1, 1, 1, 0, 0, 0, none⟩ demoFullBody rfl rfl rfl
  exact ⟨h.1, h.2.1⟩

/-- C6: the full body's subject is `[indico_event_id] subject`, the same
formatting applies to a present subject in the partial body, and the
fixed fields are the empty attendee list, `allowNewTimeProposals` false,
`isOnlineMeeting` true, provider `"unknown"`, and `onlineMeetingUrl`
equal to `zoom_url`. -/
theorem create_event_body_subject_and_fixed (p : EventParameters) (full : Dict)
    (h : create_event_body p = .ok full) :
    lookupKey full "subject" = some (.s ("[" ++ p.indico_event_id ++ "] " ++ p.subject)) ∧
    lookupKey full "attendees" = some .emptyArr ∧
    lookupKey full "allowNewTimeProposals" = some (.b false) ∧
    lookupKey full "isOnlineMeeting" = some (.b true) ∧
    lookupKey full "onlineMeetingProvider" = some (.s "unknown") ∧
    lookupKey full "onlineMeetingUrl" = some (.s p.zoom_url) ∧
    (∀ q part s2, create_partial_event_body q = .ok part → q.subject = some s2 →
      lookupKey part "subject" = some (.s ("[" ++ q.indico_event_id ++ "] " ++ s2))) := by
  cases hs : fromisoformat p.start_time with
  | none => unfold create_event_body at h; rw [hs] at h; simp at h
  | some dtS =>
  cases he : fromisoformat p.end_time with
  | none => unfold create_event_body at h; rw [hs, he] at h; simp at h
  | some dtE =>
  unfold create_event_body at h
  rw [hs, he] at h
  simp only [Except.ok.injEq] at h
  subst h
  refine ⟨rfl, rfl, rfl, rfl, rfl, rfl, ?_⟩
  intro q part s2 hq hsub
  have hshape := create_partial_event_body_shape q part hq
  subst hshape
  cases hz : q.zoom_url <;>
    simp [zoomPart, subjPart, hsub, lookupKey_append, lookupKey, Option.or]

/-- Witness for C6: subject formatting and a fixed field at the test
parameters. -/
theorem create_event_body_subject_and_fixed_witness :
    lookupKey demoFullBody "subject" = some (.s "[1234567890] Test Event") ∧
    lookupKey demoFullBody "attendees" = some .emptyArr := by
  have h := create_event_body_subject_and_fixed demoParams demoFullBody rfl
  exact ⟨h.1, h.2.1⟩

/-- C7: `get_event_zoom_id` issues the single GET for the event, returns
the `value` of the extended property whose `id` matches the zoom-id
naming pattern, and fails with the lookup error when the collection is
absent or no entry matches. -/
theorem get_event_zoom_id_scan (prov : Provider) (user_id event_id : String)
    (headers : List (String × String)) :
    (get_event_zoom_id prov user_id event_id headers).2 =
      [⟨.get, eventPath user_id event_id, headers⟩] ∧
    (∀ props p, (prov.getEvent user_id event_id).singleValueExtendedProperties = some props →
      findZoomProp props = some p →
      (get_event_zoom_id prov user_id event_id headers).1 = .ok p.value) ∧
    ((prov.getEvent user_id event_id).singleValueExtendedProperties = none →
      (get_event_zoom_id prov user_id event_id headers).1 = .error .zoomIdNotFound) ∧
    (∀ props, (prov.getEvent user_id event_id).singleValueExtendedProperties = some props →
      findZoomProp props = none →
      (get_event_zoom_id prov user_id event_id headers).1 = .error .zoomIdNotFound) := by
  refine ⟨?_, ?_, ?_, ?_⟩
  · unfold get_event_zoom_id
    cases h : (prov.getEvent user_id event_id).singleValueExtendedProperties with
    | none => simp [h]
    | some props => cases h2 : findZoomProp props <;> simp [h, h2]
  · intro props p hprops hfind
    unfold get_event_zoom_id
    simp [hprops, hfind]
  · intro hnone
    unfold get_event_zoom_id
    simp [hnone]
  · intro props hprops hfind
    unfold get_event_zoom_id
    simp [hprops, hfind]

/-- Witness for C7: the GUID-named `Name ZoomId` property of the tests
resolves to `"1234567890"`. -/
theorem get_event_zoom_id_scan_witness :
    (get_event_zoom_id demoProvider2 "user_id" "event_id" [("test", "test")]).1 =
      .ok "1234567890" :=
  (get_event_zoom_id_scan demoProvider2 "user_id" "event_id" [("test", "test")]).2.1
    [demoZoomProp] demoZoomProp rfl (by decide)

/-- C8: when resolution succeeds (and, for update, the partial body
builds), `update_event_by_zoom_id` and `delete_event_by_zoom_id` each
issue exactly the list request followed by the id-keyed PATCH or DELETE
on the resolved event id, both carrying the caller's extra headers; when
the count is zero both propagate `NotFoundError` unchanged after the
single list request. -/
theorem zoom_id_ops_request_sequence (prov : Provider) (user_id zoom_id : String)
    (params : PartialEventParameters) (headers : List (String × String))
    (e : ProviderEvent) (rest : List ProviderEvent) (body : Dict)
    (hv : prov.listEvents.value = e :: rest) (hc : prov.listEvents.count ≠ 0)
    (hb : create_partial_event_body params = .ok body) :
    (update_event_by_zoom_id prov user_id params headers).2 =
      [⟨.get, eventsPath user_id, headers⟩, ⟨.patch, eventPath user_id e.id, headers⟩] ∧
    (update_event_by_zoom_id prov user_id params headers).1 =
      .ok (prov.patchEvent user_id e.id body) ∧
    (delete_event_by_zoom_id prov user_id zoom_id headers).2 =
      [⟨.get, eventsPath user_id, headers⟩, ⟨.delete, eventPath user_id e.id, headers⟩] ∧
    (∀ prov2 : Provider, prov2.listEvents.count = 0 →
      update_event_by_zoom_id prov2 user_id params headers =
        (.error .notFound, [⟨.get, eventsPath user_id, headers⟩]) ∧
      delete_event_by_zoom_id prov2 user_id zoom_id headers =
        (.error .notFound, [⟨.get, eventsPath user_id, headers⟩])) := by
  refine ⟨?_, ?_, ?_, ?_⟩
  · unfold update_event_by_zoom_id get_event_by_zoom_id update_event
    simp [hv, hc, hb]
  · unfold update_event_by_zoom_id get_event_by_zoom_id update_event
    simp [hv, hc, hb]
  · unfold delete_event_by_zoom_id get_event_by_zoom_id delete_event
    simp [hv, hc]
  · intro prov2 h0
    constructor
    · unfold update_event_by_zoom_id get_event_by_zoom_id
      simp [h0]
    · unfold delete_event_by_zoom_id get_event_by_zoom_id
      simp [h0]

/-- Witness for C8: the update trace at a two-event provider, and the
propagated `NotFoundError` at a zero-count provider. -/
theorem zoom_id_ops_request_sequence_witness :
    (update_event_by_zoom_id demoProvider "user_id" emptyParams [("test", "test")]).2 =
      [⟨.get, eventsPath "user_id", [("test", "test")]⟩,
       ⟨.patch, eventPath "user_id" "event_id", [("test", "test")]⟩] ∧
    update_event_by_zoom_id demoProviderEmpty "user_id" emptyParams [("test", "test")] =
      (.error .notFound, [⟨.get, eventsPath "user_id", [("test", "test")]⟩]) :=
  ⟨(zoom_id_ops_request_sequence demoProvider "user_id" "zoom_id" emptyParams [("test", "test")]
      demoEvent1 [demoEvent2] [] rfl (by decide) rfl).1,
   ((zoom_id_ops_request_sequence demoProvider "user_id" "zoom_id" emptyParams [("test", "test")]
      demoEvent1 [demoEvent2] [] rfl (by decide) rfl).2.2.2 demoProviderEmpty rfl).1⟩

/-- C9: when none of `zoom_url`, `subject`, `start_time`, `end_time` is
present, the partial body is the empty dict, whatever
`indico_event_id` and `timezone` are. -/
theorem create_partial_event_body_empty_of_absent (p : PartialEventParameters)
    (hz : p.zoom_url = none) (hs : p.subject = none)
    (hst : p.start_time = none) (het : p.end_time = none) :
    create_partial_event_body p = .ok [] := by
  obtain ⟨i, z, s, st, et, tz⟩ := p
  simp only at hz hs hst het
  subst hz hs hst het
  rfl

/-- Witness for C9: present `indico_event_id` and `timezone` alone
produce the empty dict. -/
theorem create_partial_event_body_empty_of_absent_witness :
    create_partial_event_body ⟨"42", none, none, none, none, some "Europe/Paris"⟩ = .ok [] :=
  create_partial_event_body_empty_of_absent ⟨"42", none, none, none, none, some "Europe/Paris"⟩
    rfl rfl rfl rfl

/-- C10: a successful partial body's keys always lie inside
`subject`, `body`, `start`, `end`, `location`, `onlineMeetingUrl`, and
none of the four fixed constant keys ever appears. -/
theorem create_partial_event_body_frame (p : PartialEventParameters) (d : Dict)
    (h : create_partial_event_body p = .ok d) :
    (∀ k, k ∈ keysOf d →
      k ∈ ["subject", "body", "start", "end", "location", "onlineMeetingUrl"]) ∧
    (∀ k, k ∈ fixedConstKeys → lookupKey d k = none) := by
  have hshape := create_partial_event_body_shape p d h
  subst hshape
  clear h
  constructor
  · intro k hk
    cases hz : p.zoom_url <;> cases hs2 : p.subject <;>
      cases hb1 : p.start_time.bind fromisoformat <;>
      cases hb2 : p.end_time.bind fromisoformat <;>
      simp_all [keysOf, zoomPart, subjPart, dtPart] <;> tauto
  · intro k hk
    simp only [fixedConstKeys, List.mem_cons, List.not_mem_nil, or_false] at hk
    cases hz : p.zoom_url <;> cases hs2 : p.subject <;>
      cases hb1 : p.start_time.bind fromisoformat <;>
      cases hb2 : p.end_time.bind fromisoformat <;>
      rcases hk with rfl | rfl | rfl | rfl <;>
      simp [zoomPart, subjPart, dtPart, lookupKey_append, lookupKey, Option.or]

/-- Witness for C10: the `attendees` key is absent from a partial body
with several present fields. -/
theorem create_partial_event_body_frame_witness :
    ∃ d, create_partial_event_body
        ⟨"7", some "https://z", some "s", some "2021-01-01T00:00:00", none, none⟩ = .ok d ∧
      lookupKey d "attendees" = none := by
  refine ⟨_, rfl, ?_⟩
  exact (create_partial_event_body_frame
    ⟨"7", some "https://z", some "s", some "2021-01-01T00:00:00", none, none⟩ _ rfl).2
    "attendees" (by decide)

end MSClient
